import Mathlib

/-!
Verification development for the paywall402 payment-verification core.

The definitions below are a shallow embedding of the backend source:
`backend/utils/solana.js` (on-chain transfer verification),
`backend/utils/jwt.js` (access-credential issue/validate),
`backend/middleware/x402.js` (credential gate),
`backend/middleware/validation.js` (request validation),
`backend/routes/payment.js` (the initiate/verify route handlers), and
the `DatabaseManager.createPayment` persistence helper.

Modelling conventions:
* JavaScript numbers that carry USDC amounts are modelled as `Rat`.
* Timestamps are seconds since epoch, modelled as `Nat`.
* The blockchain RPC is an oracle `String → Option TxRecord` mapping a
  transaction signature to the fetched record (`none` = not found).
* The HMAC-SHA256 signing primitive is an abstract parameter
  `mac : String → Segment → String`; issue and validate receive the same
  `mac`, mirroring the server-held secret.
-/

namespace Paywall402

/-! ### Transaction records and transfer extraction (`backend/utils/solana.js`) -/

/-- USDC mainnet mint address, from `solana.js`. -/
def USDC_MINT_MAINNET : String := "EPjFWdd5AufqSSqeM2qN1xzybapC8G4wEGGkZwyTDt1v"

/-- One entry of `meta.preTokenBalances` / `meta.postTokenBalances`. -/
structure TokenBalance where
  accountIndex : Nat
  mint : String
  owner : String
  uiAmount : Rat
deriving Repr, DecidableEq

/-- The transaction record returned by `connection.getTransaction`:
`meta.err`, the pre/post token balances, the message account keys, and
`blockTime` / `slot`. -/
structure TxRecord where
  err : Option String
  preTokenBalances : List TokenBalance
  postTokenBalances : List TokenBalance
  accountKeys : List String
  blockTime : Nat
  slot : Nat
deriving Repr, DecidableEq

/-- A normalized USDC balance delta, as pushed onto `usdcTransfers` in
`verifySolanaTransaction` (`solana.js` lines 51-72). -/
structure UsdcTransfer where
  accountIndex : Nat
  owner : String
  change : Rat
  mint : String
deriving Repr, DecidableEq

/-- The loop of `solana.js` lines 53-72: for every post token balance whose
mint is USDC, pair it with the pre balance of the same account index
(missing pre balance = 0), and keep the delta when it is nonzero. -/
def extractUsdcTransfers (pre post : List TokenBalance) : List UsdcTransfer :=
  post.filterMap fun p =>
    if p.mint = USDC_MINT_MAINNET then
      let preAmount : Rat :=
        match pre.find? (fun q => q.accountIndex == p.accountIndex) with
        | some q => q.uiAmount
        | none => 0
      let change := p.uiAmount - preAmount
      if change ≠ 0 then
        some { accountIndex := p.accountIndex, owner := p.owner,
               change := change, mint := p.mint }
      else none
    else none

/-- Candidate selection of `solana.js` lines 81-102: first look for a delta
whose `owner` equals the expected recipient with a positive change; when none
matches, and the expected recipient occurs among the message account keys,
fall back to the first positive delta. -/
def findRecipientTransfer (transfers : List UsdcTransfer) (accountKeys : List String)
    (expectedRecipient : String) : Option UsdcTransfer :=
  match transfers.find? (fun t => t.owner == expectedRecipient && decide (0 < t.change)) with
  | some t => some t
  | none =>
    if accountKeys.contains expectedRecipient then
      transfers.find? (fun t => decide (0 < t.change))
    else
      none

/-- Outcome of `verifySolanaTransaction`, one constructor per `return` site. -/
inductive VerifyResult where
  | txNotFound
  | txFailed (err : String)
  | noPaymentFound
  | recipientMismatch (expectedRecipient : String) (foundTransfers : List UsdcTransfer)
  | amountMismatch (expected received : Rat)
  | verified (recipient : String) (amount : Rat) (blockTime slot : Nat)
deriving Repr, DecidableEq

/-- `verifySolanaTransaction` from `solana.js`, with the RPC connection
abstracted into the `chain` oracle.  Order of the checks follows the source:
fetch, `meta.err`, extraction, empty check, recipient selection, amount
tolerance (`amountDiff > tolerance && amountDiff > 0.01` rejects). -/
def verifySolanaTransaction (chain : String → Option TxRecord)
    (signature expectedRecipient : String) (expectedAmount : Rat) : VerifyResult :=
  match chain signature with
  | none => VerifyResult.txNotFound
  | some tx =>
    match tx.err with
    | some e => VerifyResult.txFailed e
    | none =>
      let usdcTransfers := extractUsdcTransfers tx.preTokenBalances tx.postTokenBalances
      if usdcTransfers.isEmpty then
        VerifyResult.noPaymentFound
      else
        match findRecipientTransfer usdcTransfers tx.accountKeys expectedRecipient with
        | none => VerifyResult.recipientMismatch expectedRecipient usdcTransfers
        | some recipientTransfer =>
          let amountReceived := recipientTransfer.change
          let tolerance := expectedAmount * (1 / 1000)
          let amountDiff := |amountReceived - expectedAmount|
          if amountDiff > tolerance ∧ amountDiff > 1 / 100 then
            VerifyResult.amountMismatch expectedAmount amountReceived
          else
            VerifyResult.verified recipientTransfer.owner amountReceived tx.blockTime tx.slot

/-! ### Claim C3 -/

/-- Claim C3: for every fetched transaction record whose execution status is a
failure, `verifySolanaTransaction` rejects with the transaction-failed error,
regardless of what token-balance deltas the record contains. -/
theorem C3_failed_tx_always_rejected (chain : String → Option TxRecord)
    (signature expectedRecipient : String) (expectedAmount : Rat)
    (tx : TxRecord) (e : String)
    (hfetch : chain signature = some tx) (herr : tx.err = some e) :
    verifySolanaTransaction chain signature expectedRecipient expectedAmount
      = VerifyResult.txFailed e := by
  unfold verifySolanaTransaction
  rw [hfetch]
  simp only [herr]

/-- A failed transaction whose deltas look like a perfect payment of 5 USDC to
the expected recipient: rejected all the same. -/
def failedTxGoodDeltas : TxRecord :=
  { err := some "InstructionError"
    preTokenBalances := [{ accountIndex := 1, mint := USDC_MINT_MAINNET, owner := "Creator", uiAmount := 0 }]
    postTokenBalances := [{ accountIndex := 1, mint := USDC_MINT_MAINNET, owner := "Creator", uiAmount := 5 }]
    accountKeys := ["Payer", "Creator"]
    blockTime := 1700000000
    slot := 250000000 }

/-- Witness for C3 at a concrete failed transaction whose balance deltas look
like a valid payment to the correct recipient for the correct amount. -/
theorem C3_witness :
    verifySolanaTransaction (fun _ => some failedTxGoodDeltas) "tx1" "Creator" 5
      = VerifyResult.txFailed "InstructionError" :=
  C3_failed_tx_always_rejected (fun _ => some failedTxGoodDeltas) "tx1" "Creator" 5
    failedTxGoodDeltas "InstructionError" rfl rfl

/-! ### Claim C5 -/

/-- A fetched transaction containing a single fresh-account USDC credit of
`amount` to `recipient` (no pre balance entry for the account). -/
def singleTransferTx (recipient : String) (amount : Rat) : TxRecord :=
  { err := none
    preTokenBalances := []
    postTokenBalances := [{ accountIndex := 1, mint := USDC_MINT_MAINNET, owner := recipient, uiAmount := amount }]
    accountKeys := ["Payer", recipient]
    blockTime := 1700000000
    slot := 250000000 }

/-- A chain oracle on which every signature resolves to `singleTransferTx`. -/
def singleTransferChain (recipient : String) (amount : Rat) : String → Option TxRecord :=
  fun _ => some (singleTransferTx recipient amount)

/-- Evaluation of the verifier on `singleTransferChain`: everything up to the
amount check passes, leaving the tolerance test. -/
theorem verify_singleTransfer_eval (p a : Rat) (ha : 0 < a) :
    verifySolanaTransaction (singleTransferChain "Creator" a) "tx1" "Creator" p
      = if p * (1 / 1000) < |a - p| ∧ 1 / 100 < |a - p| then
          VerifyResult.amountMismatch p a
        else
          VerifyResult.verified "Creator" a 1700000000 250000000 := by
  have hne : a ≠ 0 := ne_of_gt ha
  have hextract :
      extractUsdcTransfers []
          [{ accountIndex := 1, mint := USDC_MINT_MAINNET, owner := "Creator", uiAmount := a }]
        = [{ accountIndex := 1, owner := "Creator", change := a, mint := USDC_MINT_MAINNET }] := by
    simp [extractUsdcTransfers, hne]
  have hfind :
      findRecipientTransfer
          [{ accountIndex := 1, owner := "Creator", change := a, mint := USDC_MINT_MAINNET }]
          ["Payer", "Creator"] "Creator"
        = some { accountIndex := 1, owner := "Creator", change := a, mint := USDC_MINT_MAINNET } := by
    simp [findRecipientTransfer, List.find?, ha]
  unfold verifySolanaTransaction singleTransferChain singleTransferTx
  simp only [hextract, hfind, List.isEmpty_cons]
  norm_num

/-- Claim C5: with a candidate delta of amount `a` against listing price `p`,
verification accepts exactly when `|a - p|` is within
`max (p * 0.1%) 0.01`, and otherwise rejects with the amount-mismatch error
carrying expected and actual amounts. -/
theorem C5_amount_tolerance (p a : Rat) (ha : 0 < a) :
    (verifySolanaTransaction (singleTransferChain "Creator" a) "tx1" "Creator" p
        = VerifyResult.verified "Creator" a 1700000000 250000000
      ↔ |a - p| ≤ max (p * (1 / 1000)) (1 / 100))
    ∧ (¬ |a - p| ≤ max (p * (1 / 1000)) (1 / 100) →
        verifySolanaTransaction (singleTransferChain "Creator" a) "tx1" "Creator" p
          = VerifyResult.amountMismatch p a) := by
  have hmain := verify_singleTransfer_eval p a ha
  have key : |a - p| ≤ max (p * (1 / 1000)) (1 / 100)
      ↔ ¬ (p * (1 / 1000) < |a - p| ∧ 1 / 100 < |a - p|) := by
    rw [← max_lt_iff, not_lt]
  constructor
  · rw [hmain]
    by_cases hgt : p * (1 / 1000) < |a - p| ∧ 1 / 100 < |a - p|
    · rw [if_pos hgt]
      exact iff_of_false (by simp) (fun h => (key.mp h) hgt)
    · rw [if_neg hgt]
      exact iff_of_true rfl (key.mpr hgt)
  · intro hb
    have hgt : p * (1 / 1000) < |a - p| ∧ 1 / 100 < |a - p| := by
      by_contra h
      exact hb (key.mpr h)
    rw [hmain, if_pos hgt]

/-- Witness for C5 at the spec's boundary instances: price 10.00 accepts a
received amount of 9.99 and rejects 9.00 with an amount mismatch carrying
expected 10 and actual 9. -/
theorem C5_witness :
    verifySolanaTransaction (singleTransferChain "Creator" (999 / 100)) "tx1" "Creator" 10
        = VerifyResult.verified "Creator" (999 / 100) 1700000000 250000000
    ∧ verifySolanaTransaction (singleTransferChain "Creator" 9) "tx1" "Creator" 10
        = VerifyResult.amountMismatch 10 9 := by
  constructor
  · exact (C5_amount_tolerance 10 (999 / 100) (by norm_num)).1.mpr (by
      rw [abs_of_nonpos (by norm_num)]
      exact le_trans (by norm_num) (le_max_right _ _))
  · exact (C5_amount_tolerance 10 9 (by norm_num)).2 (by
      rw [abs_of_nonpos (by norm_num)]
      exact not_le.mpr (max_lt_iff.mpr ⟨by norm_num, by norm_num⟩))

/-! ### Claim C6 -/

/-- Claim C6: candidate selection.  On a fetched, successful transaction with
extracted delta set `ts`, (1) a delta owned by the expected recipient with a
positive change makes the candidate an owner-matching positive delta; (2) when
no delta matches by owner equality, the candidate is the first positive-change
delta exactly when the expected recipient appears among the referenced account
keys, and nothing otherwise; (3) when neither path produces a candidate the
verifier rejects with the recipient-mismatch error. -/
theorem C6_recipient_selection (chain : String → Option TxRecord)
    (signature expectedRecipient : String) (expectedAmount : Rat) (tx : TxRecord)
    (ts : List UsdcTransfer)
    (hfetch : chain signature = some tx) (herr : tx.err = none)
    (hts : ts = extractUsdcTransfers tx.preTokenBalances tx.postTokenBalances) :
    (∀ t ∈ ts, t.owner = expectedRecipient → 0 < t.change →
        ∃ u, findRecipientTransfer ts tx.accountKeys expectedRecipient = some u
          ∧ u.owner = expectedRecipient ∧ 0 < u.change)
    ∧ ((∀ t ∈ ts, ¬ (t.owner = expectedRecipient ∧ 0 < t.change)) →
        findRecipientTransfer ts tx.accountKeys expectedRecipient
          = if expectedRecipient ∈ tx.accountKeys then
              ts.find? (fun t => decide (0 < t.change))
            else none)
    ∧ (ts.isEmpty = false →
        findRecipientTransfer ts tx.accountKeys expectedRecipient = none →
        verifySolanaTransaction chain signature expectedRecipient expectedAmount
          = VerifyResult.recipientMismatch expectedRecipient ts) := by
  refine ⟨?_, ?_, ?_⟩
  · intro t ht hown hch
    have hsome : (ts.find? (fun t => t.owner == expectedRecipient && decide (0 < t.change))).isSome := by
      rw [List.find?_isSome]
      exact ⟨t, ht, by simp [hown, hch]⟩
    obtain ⟨u, hu⟩ := Option.isSome_iff_exists.mp hsome
    have hprops := List.find?_some hu
    simp only [Bool.and_eq_true, beq_iff_eq, decide_eq_true_eq] at hprops
    refine ⟨u, ?_, hprops.1, hprops.2⟩
    unfold findRecipientTransfer
    rw [hu]
  · intro hno
    have hnone : ts.find? (fun t => t.owner == expectedRecipient && decide (0 < t.change)) = none := by
      rw [List.find?_eq_none]
      intro x hx
      simp only [Bool.and_eq_true, beq_iff_eq, decide_eq_true_eq]
      exact fun hc => hno x hx hc
    unfold findRecipientTransfer
    rw [hnone]
    by_cases hk : expectedRecipient ∈ tx.accountKeys
    · rw [if_pos hk, if_pos]
      exact List.elem_iff.mpr hk
    · rw [if_neg hk, if_neg]
      intro hc
      exact hk (List.elem_iff.mp hc)
  · intro hne hcand
    unfold verifySolanaTransaction
    rw [hfetch]
    simp only [herr, ← hts, hne, Bool.false_eq_true, if_false, hcand]

/-- A successful transaction crediting 5 USDC to an owner different from the
expected recipient, whose account keys do not mention the expected recipient
either. -/
def otherRecipientTx : TxRecord :=
  { err := none
    preTokenBalances := []
    postTokenBalances := [{ accountIndex := 1, mint := USDC_MINT_MAINNET, owner := "Mallory", uiAmount := 5 }]
    accountKeys := ["Payer", "Mallory"]
    blockTime := 1700000000
    slot := 250000000 }

/-- Witness for C6: a transfer crediting an address other than the expected
recipient, with no fallback match in the account keys, is rejected with the
recipient-mismatch error. -/
theorem C6_witness :
    verifySolanaTransaction (fun _ => some otherRecipientTx) "tx1" "Creator" 5
      = VerifyResult.recipientMismatch "Creator"
          [{ accountIndex := 1, owner := "Mallory", change := 5, mint := USDC_MINT_MAINNET }] := by
  have h := C6_recipient_selection (fun _ => some otherRecipientTx) "tx1" "Creator" 5
    otherRecipientTx
    [{ accountIndex := 1, owner := "Mallory", change := 5, mint := USDC_MINT_MAINNET }]
    rfl rfl (by simp [extractUsdcTransfers, otherRecipientTx, USDC_MINT_MAINNET])
  exact h.2.2 rfl (by simp [findRecipientTransfer, List.find?, otherRecipientTx])

/-! ### Access credentials (`backend/utils/jwt.js`, `backend/middleware/x402.js`)

A token is the three dot-joined segments `header.payload.signature`.
Base64url segments never contain a dot, so the split is modelled by a
three-field structure.  The payload segment either JSON-parses to a claims
object (`Segment.claims`) or does not (`Segment.raw`, on which `JSON.parse`
throws and `verifyAccessToken` returns null); base64url encoding and JSON
serialisation are injective, which the constructor embedding reflects.  The
HMAC primitive is the abstract `mac` argument shared by issuer and
validator. -/

/-- The claims object carried in the payload segment.  `generateAccessToken`
always sets `iat` and `exp`; a hand-crafted token's JSON may omit them, hence
`Option`. -/
structure Claims where
  contentId : String
  signature : String
  payerWallet : String
  type : String
  iat : Option Nat
  exp : Option Nat
deriving Repr, DecidableEq

/-- A payload segment: a blob that parses to a claims object, or one that
does not. -/
inductive Segment where
  | claims (c : Claims)
  | raw (s : String)
deriving Repr, DecidableEq

/-- A three-part token `header.payload.signature`. -/
structure Token where
  header : String
  payload : Segment
  sig : String
deriving Repr, DecidableEq

/-- The payload object `payment.js` passes to `generateAccessToken`. -/
structure TokenPayload where
  contentId : String
  signature : String
  payerWallet : String
  type : String
deriving Repr, DecidableEq

/-- The fixed encoded JWT header for the constant object written in
`generateAccessToken`. -/
def jwtHeaderSegment : String := "eyJhbGciOiJIUzI1NiIsInR5cCI6IkpXVCJ9"

/-- Character-by-character short-circuit string comparison, the cost model of
the JavaScript `!==` operator used at `jwt.js` line 62: compare until the
first mismatch or the end of either string. -/
def cmpEq : List Char → List Char → Bool
  | [], [] => true
  | [], _ :: _ => false
  | _ :: _, [] => false
  | a :: as, b :: bs => a == b && cmpEq as bs

/-- Number of character comparisons `cmpEq` performs before answering. -/
def cmpSteps : List Char → List Char → Nat
  | [], _ => 0
  | _, [] => 0
  | a :: as, b :: bs => if a == b then 1 + cmpSteps as bs else 1

/-- The string comparison of `jwt.js` line 62 (`signature !== expectedSignature`),
via the short-circuit scan. -/
def strCompareEq (s t : String) : Bool := cmpEq s.toList t.toList

/-- Comparison step count of `strCompareEq`. -/
def strCompareSteps (s t : String) : Nat := cmpSteps s.toList t.toList

theorem cmpEq_iff (as bs : List Char) : cmpEq as bs = true ↔ as = bs := by
  induction as generalizing bs with
  | nil => cases bs <;> simp [cmpEq]
  | cons a as ih =>
    cases bs with
    | nil => simp [cmpEq]
    | cons b bs => simp [cmpEq, ih]

theorem strCompareEq_iff (s t : String) : strCompareEq s t = true ↔ s = t := by
  rw [strCompareEq, cmpEq_iff]
  constructor
  · intro h
    exact String.ext h
  · intro h
    rw [h]

theorem strCompareEq_self (s : String) : strCompareEq s s = true :=
  (strCompareEq_iff s s).mpr rfl

/-- `generateAccessToken` from `jwt.js`: spread the payload, add `iat := now`
and `exp := now + expiresIn`, encode, and sign header-dot-payload. -/
def generateAccessToken (mac : String → Segment → String) (payload : TokenPayload)
    (expiresIn : Nat) (now : Nat) : Token :=
  let claims : Claims :=
    { contentId := payload.contentId, signature := payload.signature,
      payerWallet := payload.payerWallet, type := payload.type,
      iat := some now, exp := some (now + expiresIn) }
  { header := jwtHeaderSegment, payload := Segment.claims claims,
    sig := mac jwtHeaderSegment (Segment.claims claims) }

/-- The expiry test of `jwt.js` line 72, `payload.exp && payload.exp < now`:
an absent `exp` — and the JavaScript-falsy value `0` — skips the check. -/
def expClaimFailsCheck (exp : Option Nat) (now : Nat) : Bool :=
  match exp with
  | none => false
  | some e => if e == 0 then false else decide (e < now)

/-- `verifyAccessToken` from `jwt.js`: recompute the signature over
header-dot-payload, compare with `!==`, parse the payload, test expiry. -/
def verifyAccessToken (mac : String → Segment → String) (token : Token)
    (now : Nat) : Option Claims :=
  if strCompareEq token.sig (mac token.header token.payload) = false then
    none
  else
    match token.payload with
    | Segment.raw _ => none
    | Segment.claims payload =>
      if expClaimFailsCheck payload.exp now then none
      else some payload

/-- The credential acceptance test of the x402 gate (`x402.js` line 113):
`verifyAccessToken` succeeds and the decoded claims carry the requested
content id and type `payment`. -/
def credentialValid (mac : String → Segment → String) (token : Token)
    (contentId : String) (now : Nat) : Bool :=
  match verifyAccessToken mac token now with
  | none => false
  | some payload => payload.contentId == contentId && payload.type == "payment"

/-! ### Claim C4 -/

/-- Claim C4: for a token whose payload parses to claims with a (positive)
expiry, the credential passes the gate's validation exactly when the
recomputed signature matches the provided one, the claims type is `payment`,
the expiry has not passed (it fails once `now` exceeds `exp`), and the claims
content id equals the requested one; in particular it fails on signature
mismatch and on a non-payment type. -/
theorem C4_credential_validation (mac : String → Segment → String) (token : Token)
    (c : Claims) (e now : Nat) (contentId : String)
    (hp : token.payload = Segment.claims c) (hexp : c.exp = some e) (hpos : 0 < e) :
    credentialValid mac token contentId now = true
      ↔ (token.sig = mac token.header token.payload
          ∧ c.type = "payment" ∧ ¬ e < now ∧ c.contentId = contentId) := by
  have hez : (e == 0) = false := by
    have hne0 : e ≠ 0 := Nat.pos_iff_ne_zero.mp hpos
    simp [hne0]
  unfold credentialValid verifyAccessToken
  rw [hp]
  by_cases hsig : token.sig = mac token.header (Segment.claims c)
  · have hcmp : strCompareEq token.sig (mac token.header (Segment.claims c)) = true :=
      (strCompareEq_iff _ _).mpr hsig
    rw [if_neg (by simp [hcmp])]
    simp only [expClaimFailsCheck, hexp, hez, Bool.false_eq_true, if_false]
    by_cases hlt : e < now
    · rw [if_pos (by simp [hlt])]
      exact iff_of_false (by simp) (fun h => h.2.2.1 hlt)
    · rw [if_neg (by simp [hlt])]
      simp only [Bool.and_eq_true, beq_iff_eq]
      constructor
      · intro h
        exact ⟨hsig, h.2, hlt, h.1⟩
      · intro h
        exact ⟨h.2.2.2, h.2.1⟩
  · have hcmp : strCompareEq token.sig (mac token.header (Segment.claims c)) = false := by
      cases hq : strCompareEq token.sig (mac token.header (Segment.claims c)) with
      | false => rfl
      | true => exact absurd ((strCompareEq_iff _ _).mp hq) hsig
    rw [if_pos hcmp]
    exact iff_of_false (by simp) (fun h => hsig h.1)

/-- A concrete HMAC stand-in for witnesses. -/
def macFix : String → Segment → String := fun _ _ => "m"

/-- A concrete claims object for witnesses. -/
def claimsFix : Claims :=
  { contentId := "c1", signature := "tx1", payerWallet := "Payer",
    type := "payment", iat := some 10, exp := some 100 }

/-- Witness for C4: a well-signed payment credential for the requested content,
validated before expiry, is accepted. -/
theorem C4_witness :
    credentialValid macFix
      { header := jwtHeaderSegment, payload := Segment.claims claimsFix, sig := "m" }
      "c1" 50 = true :=
  (C4_credential_validation macFix
      { header := jwtHeaderSegment, payload := Segment.claims claimsFix, sig := "m" }
      claimsFix 100 50 "c1" rfl rfl (by norm_num)).mpr
    ⟨rfl, rfl, by norm_num, rfl⟩

/-! ### Claim C8 -/

/-- Claim C8: credential round-trip.  Validating a token freshly issued at
`now` with positive ttl `expiresIn`, at any time `t` up to its expiry,
succeeds and returns the issued claims object bit-for-bit: the four payload
fields unchanged, `iat = now`, `exp = now + expiresIn`. -/
theorem C8_credential_roundtrip (mac : String → Segment → String)
    (payload : TokenPayload) (expiresIn now t : Nat)
    (hpos : 0 < expiresIn) (ht : t ≤ now + expiresIn) :
    verifyAccessToken mac (generateAccessToken mac payload expiresIn now) t
      = some { contentId := payload.contentId, signature := payload.signature,
               payerWallet := payload.payerWallet, type := payload.type,
               iat := some now, exp := some (now + expiresIn) } := by
  unfold generateAccessToken verifyAccessToken
  rw [if_neg (by simp [strCompareEq_self])]
  have hez : (now + expiresIn == 0) = false := by
    have : now + expiresIn ≠ 0 := by omega
    simp [this]
  simp only [expClaimFailsCheck, hez, Bool.false_eq_true, if_false]
  rw [if_neg (by simp; omega)]

/-- Witness for C8 at a concrete payload, ttl and validation time. -/
theorem C8_witness :
    verifyAccessToken macFix
        (generateAccessToken macFix
          { contentId := "c1", signature := "tx1", payerWallet := "Payer", type := "payment" }
          604800 10) 1000
      = some { contentId := "c1", signature := "tx1", payerWallet := "Payer",
               type := "payment", iat := some 10, exp := some 604810 } :=
  C8_credential_roundtrip macFix
    { contentId := "c1", signature := "tx1", payerWallet := "Payer", type := "payment" }
    604800 10 1000 (by norm_num) (by norm_num)

/-! ### Claim C9 -/

/-- Claim C9: a token whose signature verifies but whose decoded payload
contains no `exp` field is accepted by `verifyAccessToken` at every point in
time — the expiry test `payload.exp && payload.exp < now` is skipped when
`exp` is absent, so such a token never expires. -/
theorem C9_missing_exp_never_expires (mac : String → Segment → String)
    (token : Token) (c : Claims)
    (hsig : token.sig = mac token.header token.payload)
    (hp : token.payload = Segment.claims c)
    (hexp : c.exp = none) :
    ∀ now : Nat, verifyAccessToken mac token now = some c := by
  intro now
  unfold verifyAccessToken
  rw [if_neg (by simp [hsig, strCompareEq_self])]
  rw [hp]
  simp [expClaimFailsCheck, hexp]

/-- A claims object with no `exp` field. -/
def claimsNoExp : Claims :=
  { contentId := "c1", signature := "tx1", payerWallet := "Payer",
    type := "payment", iat := some 10, exp := none }

/-- Witness for C9: a well-signed token without `exp` is accepted even at a
time far beyond any realistic expiry. -/
theorem C9_witness :
    verifyAccessToken macFix
        { header := jwtHeaderSegment, payload := Segment.claims claimsNoExp, sig := "m" }
        100000000000 = some claimsNoExp :=
  C9_missing_exp_never_expires macFix
    { header := jwtHeaderSegment, payload := Segment.claims claimsNoExp, sig := "m" }
    claimsNoExp rfl rfl rfl 100000000000

/-! ### Claim C10

The spec asserts the recomputed signature is compared to the provided one
with a constant-time comparison.  The source compares them with the plain
JavaScript `!==` operator, a short-circuiting comparison whose work stops at
the first differing character; `strCompareEq`/`strCompareSteps` model that
scan and its cost. -/

/-- Counterexample to claim C10: two signature pairs of identical lengths,
both rejected, on which the validation's comparison performs a different
number of character comparisons — four when the strings agree on three
leading characters, one when they disagree immediately.  The comparison's
behaviour therefore depends on how many leading characters agree; it is not
constant-time. -/
theorem C10_counterexample :
    strCompareEq "abcd" "abcz" = false
    ∧ strCompareEq "abcd" "zbcd" = false
    ∧ strCompareSteps "abcd" "abcz" = 4
    ∧ strCompareSteps "abcd" "zbcd" = 1
    ∧ strCompareSteps "abcd" "abcz" ≠ strCompareSteps "abcd" "zbcd" := by
  refine ⟨rfl, rfl, rfl, rfl, ?_⟩
  decide

/-- Claim C10 as amended: credential validation compares the recomputed
signature to the provided one with plain short-circuiting string equality
(the JavaScript `!==`), not a constant-time comparison — acceptance requires
the strings to be equal, the comparison decides exactly string equality, and
its character-comparison count on two strings differing after a common
prefix is the prefix length plus one, so the observable cost grows with
leading agreement. -/
theorem C10_plain_equality_comparison :
    (∀ (mac : String → Segment → String) (token : Token) (now : Nat) (c : Claims),
        verifyAccessToken mac token now = some c →
          token.sig = mac token.header token.payload)
    ∧ (∀ s t : String, strCompareEq s t = true ↔ s = t)
    ∧ (∀ (l r₁ r₂ : List Char) (a b : Char), a ≠ b →
        cmpSteps (l ++ a :: r₁) (l ++ b :: r₂) = l.length + 1) := by
  refine ⟨?_, strCompareEq_iff, ?_⟩
  · intro mac token now c h
    unfold verifyAccessToken at h
    by_cases hcmp : strCompareEq token.sig (mac token.header token.payload) = false
    · rw [if_pos hcmp] at h
      exact absurd h (by simp)
    · have : strCompareEq token.sig (mac token.header token.payload) = true := by
        cases hq : strCompareEq token.sig (mac token.header token.payload) with
        | false => exact absurd hq hcmp
        | true => rfl
      exact (strCompareEq_iff _ _).mp this
  · intro l r₁ r₂ a b hab
    induction l with
    | nil =>
      have : (a == b) = false := by simp [hab]
      simp [cmpSteps, this]
    | cons x xs ih =>
      simp [cmpSteps, ih]
      omega

/-- Witness for C10's amended statement: the step count after a one-character
agreeing prefix is two. -/
theorem C10_amended_witness :
    cmpSteps (['x'] ++ 'a' :: []) (['x'] ++ 'b' :: []) = 2 :=
  C10_plain_equality_comparison.2.2 ['x'] [] [] 'a' 'b' (by decide)

/-! ### Payment persistence (`DatabaseManager.createPayment` and the tables) -/

/-- A row of the `content` table (`db/schema.sql`). -/
structure ContentRow where
  id : String
  priceUsdc : Rat
  creatorWallet : String
  expiresAt : Option Nat
  views : Nat
  payments : Nat
deriving Repr, DecidableEq

/-- A row of the `payment_logs` table (`db/schema.sql`). -/
structure PaymentRow where
  id : String
  contentId : String
  payerWallet : String
  amountUsdc : Rat
  transactionSignature : String
  paymentStatus : String
  paidAt : Nat
deriving Repr, DecidableEq

/-- Database state: the two tables touched by the payment core. -/
structure DB where
  content : List ContentRow
  paymentLogs : List PaymentRow
deriving Repr, DecidableEq

/-- The `getPaymentBySignature` prepared statement:
`SELECT * FROM payment_logs WHERE transaction_signature = $1`. -/
def getPaymentBySignature (db : DB) (sig : String) : List PaymentRow :=
  db.paymentLogs.filter (fun r => r.transactionSignature == sig)

/-- The `createPayment` prepared statement: `INSERT INTO payment_logs ...`. -/
def insertPaymentLog (db : DB) (row : PaymentRow) : DB :=
  { db with paymentLogs := db.paymentLogs ++ [row] }

/-- The `updatePaymentCount` prepared statement:
`UPDATE content SET payments = payments + 1 WHERE id = $1`. -/
def updatePaymentCount (db : DB) (contentId : String) : DB :=
  { db with content := db.content.map fun c =>
      if c.id == contentId then { c with payments := c.payments + 1 } else c }

/-- The argument object of `DatabaseManager.createPayment`. -/
structure PaymentData where
  id : String
  contentId : String
  payerWallet : String
  amountUsdc : Rat
  transactionSignature : String
  paymentStatus : String
deriving Repr, DecidableEq

/-- Storage failure surfaced by a query that throws. -/
inductive DbError where
  | storageError
deriving Repr, DecidableEq

/-- The row the `createPayment` insert produces (`paid_at := CURRENT_TIMESTAMP`). -/
def mkPaymentRow (pd : PaymentData) (now : Nat) : PaymentRow :=
  { id := pd.id, contentId := pd.contentId, payerWallet := pd.payerWallet,
    amountUsdc := pd.amountUsdc, transactionSignature := pd.transactionSignature,
    paymentStatus := pd.paymentStatus, paidAt := now }

/-- `DatabaseManager.createPayment` (`part_006` lines 341-384): look up an
existing row by signature and return it unchanged when found; otherwise run
the insert and the counter increment inside one `BEGIN`/`COMMIT` block
(`DatabaseManager.transaction`), which rolls every effect back when either
query throws.  `insertOk`/`updateOk` say whether the two queries inside the
block succeed; on any failure the state is the rolled-back original. -/
def createPayment (db : DB) (pd : PaymentData) (now : Nat)
    (insertOk updateOk : Bool) : DB × Except DbError PaymentRow :=
  match getPaymentBySignature db pd.transactionSignature with
  | existing :: _ => (db, Except.ok existing)
  | [] =>
    if insertOk && updateOk then
      let row := mkPaymentRow pd now
      (updatePaymentCount (insertPaymentLog db row) pd.contentId, Except.ok row)
    else
      (db, Except.error DbError.storageError)

/-- The listing's `payments` counter as seen through a lookup by id (first
matching row). -/
def paymentCountOf (db : DB) (contentId : String) : Option Nat :=
  (db.content.find? (fun c => c.id == contentId)).map (fun c => c.payments)

theorem paymentCountOf_update (db : DB) (contentId : String) :
    paymentCountOf (updatePaymentCount db contentId) contentId
      = (paymentCountOf db contentId).map (fun n => n + 1) := by
  unfold paymentCountOf updatePaymentCount
  induction db.content with
  | nil => rfl
  | cons c cs ih =>
    by_cases hc : (c.id == contentId) = true
    · simp [List.find?, hc]
    · have hc' : (c.id == contentId) = false := by
        cases hq : (c.id == contentId) with
        | false => rfl
        | true => exact absurd hq hc
      simpa [List.find?, hc'] using ih

theorem paymentCountOf_insertLog (db : DB) (row : PaymentRow) (contentId : String) :
    paymentCountOf (insertPaymentLog db row) contentId = paymentCountOf db contentId := rfl

/-! ### Claim C2 -/

/-- Claim C2: `createPayment` is idempotent on the transaction signature and
atomic on first insertion.  Starting from a state with no row for the
signature: the first successful call returns the new row; a second call with
the same signature — whatever its queries would do — returns that existing
row unchanged and leaves the state untouched; afterwards exactly one row
carries the signature and the listing's payment counter went up exactly once;
and when either query of the first insertion fails, neither the row nor the
counter increment survives. -/
theorem C2_createPayment_idempotent_atomic (db : DB) (pd : PaymentData)
    (now now' : Nat) (b₁ b₂ : Bool)
    (hfresh : getPaymentBySignature db pd.transactionSignature = []) :
    (createPayment db pd now true true).2 = Except.ok (mkPaymentRow pd now)
    ∧ createPayment (createPayment db pd now true true).1 pd now' b₁ b₂
        = ((createPayment db pd now true true).1, Except.ok (mkPaymentRow pd now))
    ∧ (getPaymentBySignature (createPayment db pd now true true).1
        pd.transactionSignature) = [mkPaymentRow pd now]
    ∧ paymentCountOf (createPayment db pd now true true).1 pd.contentId
        = (paymentCountOf db pd.contentId).map (fun n => n + 1)
    ∧ (∀ f₁ f₂ : Bool, (f₁ && f₂) = false →
        createPayment db pd now f₁ f₂ = (db, Except.error DbError.storageError)) := by
  have hrow : (mkPaymentRow pd now).transactionSignature = pd.transactionSignature := rfl
  have hfirst : createPayment db pd now true true
      = (updatePaymentCount (insertPaymentLog db (mkPaymentRow pd now)) pd.contentId,
         Except.ok (mkPaymentRow pd now)) := by
    unfold createPayment
    rw [hfresh]
    rfl
  have hlogs : (createPayment db pd now true true).1.paymentLogs
      = db.paymentLogs ++ [mkPaymentRow pd now] := by
    rw [hfirst]
    rfl
  have hsecond : ∀ db1 : DB,
      getPaymentBySignature db1 pd.transactionSignature = [mkPaymentRow pd now] →
      createPayment db1 pd now' b₁ b₂ = (db1, Except.ok (mkPaymentRow pd now)) := by
    intro db1 h1
    unfold createPayment
    rw [h1]
  have hlookup : getPaymentBySignature (createPayment db pd now true true).1
      pd.transactionSignature = [mkPaymentRow pd now] := by
    unfold getPaymentBySignature
    rw [hlogs, List.filter_append]
    have h1 : db.paymentLogs.filter
        (fun r => r.transactionSignature == pd.transactionSignature) = [] := hfresh
    rw [h1]
    simp [hrow]
  refine ⟨by rw [hfirst], hsecond _ hlookup, hlookup, ?_, ?_⟩
  · rw [hfirst]
    rw [paymentCountOf_update, paymentCountOf_insertLog]
  · intro f₁ f₂ hf
    unfold createPayment
    rw [hfresh, hf]
    simp

/-- A one-listing database with no payment rows. -/
def dbFix : DB :=
  { content := [{ id := "c1", priceUsdc := 10, creatorWallet := "Creator",
                  expiresAt := none, views := 0, payments := 0 }]
    paymentLogs := [] }

/-- The payment data a verified 10-USDC payment records. -/
def pdFix : PaymentData :=
  { id := "p1", contentId := "c1", payerWallet := "Payer", amountUsdc := 10,
    transactionSignature := "tx1", paymentStatus := "completed" }

/-- Witness for C2 on a concrete fresh database: one row, one increment,
idempotent second call, rollback on failure. -/
theorem C2_witness :
    (createPayment dbFix pdFix 50 true true).2 = Except.ok (mkPaymentRow pdFix 50)
    ∧ createPayment (createPayment dbFix pdFix 50 true true).1 pdFix 60 true true
        = ((createPayment dbFix pdFix 50 true true).1, Except.ok (mkPaymentRow pdFix 50))
    ∧ (getPaymentBySignature (createPayment dbFix pdFix 50 true true).1
        pdFix.transactionSignature) = [mkPaymentRow pdFix 50]
    ∧ paymentCountOf (createPayment dbFix pdFix 50 true true).1 pdFix.contentId
        = (paymentCountOf dbFix pdFix.contentId).map (fun n => n + 1)
    ∧ (∀ f₁ f₂ : Bool, (f₁ && f₂) = false →
        createPayment dbFix pdFix 50 f₁ f₂ = (dbFix, Except.error DbError.storageError)) :=
  C2_createPayment_idempotent_atomic dbFix pdFix 50 60 true true rfl

/-! ### Request validation (`backend/middleware/validation.js`)

The signature-format rule of `validatePaymentRequest` line 229:
a base58 string of 87-88 characters, or anything starting with `sim_`. -/

/-- The JavaScript `startsWith` test, via the character lists (the kernel
cannot evaluate `String.startsWith` directly). -/
def strStartsWith (s pre : String) : Bool :=
  List.isPrefixOf pre.toList s.toList

/-- Base58 alphabet of the regex character class (digits 1-9, upper case
without I and O, lower case without l). -/
def isBase58Char (c : Char) : Bool :=
  "123456789ABCDEFGHJKLMNPQRSTUVWXYZabcdefghijkmnopqrstuvwxyz".toList.contains c

/-- The regex of `validation.js` line 229. -/
def signatureFormatOk (s : String) : Bool :=
  (decide (87 ≤ s.length) && decide (s.length ≤ 88) && s.toList.all isBase58Char)
    || strStartsWith s "sim_"

/-! ### Route handlers (`backend/routes/payment.js`)

The `env` argument carries the process environment visible to the route
module; the `/verify` handler of the source never reads it — the
simulated-transaction branch is selected solely by the signature prefix. -/

/-- The process environment the backend reads. -/
structure Env where
  nodeEnv : String
  frontendUrl : String
deriving Repr, DecidableEq

/-- Response of the `POST /api/payment/verify` handler, one constructor per
response site.  There is no expiry rejection: the handler's content query
selects only `price_usdc` and `creator_wallet`. -/
inductive VerifyResponse where
  | badRequest
  | contentNotFound
  | paymentRejected (r : VerifyResult)
  | verifiedSimulated (accessToken : Token)
  | verifiedOnChain (accessToken : Token) (recipient : String) (amount : Rat)
      (blockTime slot : Nat)
deriving Repr, DecidableEq

/-- Token ttl used by the verify route: 7 days in seconds. -/
def SEVEN_DAYS : Nat := 7 * 24 * 60 * 60

/-- The `POST /api/payment/verify` handler (`payment.js` lines 111-243):
require both fields, look the listing up (404 when missing), then branch on
`transactionSignature.startsWith('sim_')`.  The simulated branch logs the
payment, bumps the counter and mints a token without touching the chain; the
other branch runs `verifySolanaTransaction` and only records and mints on a
verified result. -/
def verifyHandler (env : Env) (mac : String → Segment → String)
    (chain : String → Option TxRecord) (db : DB)
    (contentId transactionSignature : String) (payerWallet : Option String)
    (now : Nat) : DB × VerifyResponse :=
  if contentId == "" || transactionSignature == "" then
    (db, VerifyResponse.badRequest)
  else
    match db.content.find? (fun c => c.id == contentId) with
    | none => (db, VerifyResponse.contentNotFound)
    | some content =>
      let expectedAmount := content.priceUsdc
      let creatorWallet := content.creatorWallet
      let isSimulatedTx := strStartsWith transactionSignature "sim_"
      if isSimulatedTx then
        let db₁ := insertPaymentLog db
          { id := "", contentId := contentId, payerWallet := payerWallet.getD "unknown",
            amountUsdc := expectedAmount, transactionSignature := transactionSignature,
            paymentStatus := "completed", paidAt := now }
        let db₂ := updatePaymentCount db₁ contentId
        let accessToken := generateAccessToken mac
          { contentId := contentId, signature := transactionSignature,
            payerWallet := payerWallet.getD "unknown", type := "payment" }
          SEVEN_DAYS now
        (db₂, VerifyResponse.verifiedSimulated accessToken)
      else
        match verifySolanaTransaction chain transactionSignature creatorWallet expectedAmount with
        | VerifyResult.verified recipient amount blockTime slot =>
          let db₁ := insertPaymentLog db
            { id := "", contentId := contentId, payerWallet := payerWallet.getD "unknown",
              amountUsdc := expectedAmount, transactionSignature := transactionSignature,
              paymentStatus := "completed", paidAt := now }
          let db₂ := updatePaymentCount db₁ contentId
          let accessToken := generateAccessToken mac
            { contentId := contentId, signature := transactionSignature,
              payerWallet := payerWallet.getD "unknown", type := "payment" }
            SEVEN_DAYS now
          (db₂, VerifyResponse.verifiedOnChain accessToken recipient amount blockTime slot)
        | r => (db, VerifyResponse.paymentRejected r)

/-- Response of the `POST /api/payment/initiate` handler.  Whether the x402
facilitator call succeeds or falls back to manual instructions, the handler
answers with payment instructions; both are collapsed into one constructor. -/
inductive InitiateResponse where
  | contentNotFound
  | contentExpired
  | paymentInstructions (amount : Rat) (recipient : String)
deriving Repr, DecidableEq

/-- The `POST /api/payment/initiate` handler (`payment.js` lines 16-105):
look the listing up (404 when missing), reject 410 when
`expires_at && expires_at < now`, else answer with payment instructions. -/
def initiateHandler (db : DB) (contentId : String) (now : Nat) : InitiateResponse :=
  match db.content.find? (fun c => c.id == contentId) with
  | none => InitiateResponse.contentNotFound
  | some content =>
    match content.expiresAt with
    | some e =>
      if e < now then InitiateResponse.contentExpired
      else InitiateResponse.paymentInstructions content.priceUsdc content.creatorWallet
    | none => InitiateResponse.paymentInstructions content.priceUsdc content.creatorWallet

/-! ### Claim C1 -/

/-- Claim C1, checked against the code: any signature starting with `sim_`
passes the request-format validation, and the verify handler behaves
identically under every process environment and every chain oracle — the
ledger is never consulted on the simulated branch and no environment flag is
read; whenever the listing resolves, the request is accepted as a simulated
payment with a freshly minted access token.  The bypass is therefore
reachable in every environment, production included. -/
theorem C1_sim_bypass_reachable_everywhere (env env' : Env)
    (mac : String → Segment → String)
    (chain chain' : String → Option TxRecord) (db : DB)
    (contentId transactionSignature : String) (payerWallet : Option String) (now : Nat)
    (hsim : strStartsWith transactionSignature "sim_" = true) :
    signatureFormatOk transactionSignature = true
    ∧ verifyHandler env mac chain db contentId transactionSignature payerWallet now
        = verifyHandler env' mac chain' db contentId transactionSignature payerWallet now
    ∧ (∀ content, db.content.find? (fun c => c.id == contentId) = some content →
        contentId ≠ "" →
        (verifyHandler env mac chain db contentId transactionSignature payerWallet now).2
          = VerifyResponse.verifiedSimulated
              (generateAccessToken mac
                { contentId := contentId, signature := transactionSignature,
                  payerWallet := payerWallet.getD "unknown", type := "payment" }
                SEVEN_DAYS now)) := by
  have hts : transactionSignature ≠ "" := by
    intro h
    rw [h] at hsim
    exact absurd hsim (by decide)
  refine ⟨by simp [signatureFormatOk, hsim], ?_, ?_⟩
  · unfold verifyHandler
    simp only [hsim, if_true]
  · intro content hfind hcid
    have h1 : (contentId == "") = false := beq_eq_false_iff_ne.mpr hcid
    have h2 : (transactionSignature == "") = false := beq_eq_false_iff_ne.mpr hts
    unfold verifyHandler
    simp only [h1, h2, Bool.or_self, Bool.false_eq_true, if_false, hfind, hsim, if_true]

/-- Witness for C1 at the failing input of the production environment: with
`NODE_ENV = "production"`, an existing listing and the signature `sim_test`,
the request passes format validation and is accepted with no ledger
verification (here the chain oracle knows no transaction at all). -/
theorem C1_witness :
    signatureFormatOk "sim_test" = true
    ∧ (verifyHandler { nodeEnv := "production", frontendUrl := "https://pw" }
        macFix (fun _ => none) dbFix "c1" "sim_test" none 50).2
        = VerifyResponse.verifiedSimulated
            (generateAccessToken macFix
              { contentId := "c1", signature := "sim_test",
                payerWallet := "unknown", type := "payment" }
              SEVEN_DAYS 50) := by
  have h := C1_sim_bypass_reachable_everywhere
    { nodeEnv := "production", frontendUrl := "https://pw" }
    { nodeEnv := "development", frontendUrl := "https://pw" }
    macFix (fun _ => none) (fun _ => some failedTxGoodDeltas) dbFix
    "c1" "sim_test" none 50 rfl
  exact ⟨h.1, h.2.2 _ rfl (by decide)⟩

/-! ### Claim C7 -/

/-- A one-listing database whose listing expired at time 40. -/
def dbExpired : DB :=
  { content := [{ id := "c1", priceUsdc := 5, creatorWallet := "Creator",
                  expiresAt := some 40, views := 0, payments := 0 }]
    paymentLogs := [] }

/-- Counterexample to claim C7: at time 100 the only listing expired at 40,
yet the verify handler does not reject it as expired — it proceeds to the
ledger and accepts the payment.  The verify route performs no expiry check
at all (its content query does not even select `expires_at`). -/
theorem C7_counterexample :
    (dbExpired.content.find? (fun c => c.id == "c1")).map (fun c => c.expiresAt)
        = some (some 40)
    ∧ (40 : Nat) < 100
    ∧ (verifyHandler { nodeEnv := "production", frontendUrl := "https://pw" }
        macFix (singleTransferChain "Creator" 5) dbExpired "c1" "tx1" none 100).2
        = VerifyResponse.verifiedOnChain
            (generateAccessToken macFix
              { contentId := "c1", signature := "tx1",
                payerWallet := "unknown", type := "payment" }
              SEVEN_DAYS 100)
            "Creator" 5 1700000000 250000000 := by
  refine ⟨rfl, by norm_num, ?_⟩
  have hverify : verifySolanaTransaction (singleTransferChain "Creator" 5) "tx1" "Creator" 5
      = VerifyResult.verified "Creator" 5 1700000000 250000000 := by
    rw [verify_singleTransfer_eval 5 5 (by norm_num), if_neg (by norm_num)]
  have hguard : (("c1" == "") || ("tx1" == "")) = false := rfl
  have hfind : List.find? (fun c => c.id == "c1") dbExpired.content
      = some { id := "c1", priceUsdc := 5, creatorWallet := "Creator",
               expiresAt := some 40, views := 0, payments := 0 } := rfl
  have hsim : strStartsWith "tx1" "sim_" = false := rfl
  unfold verifyHandler
  simp only [hguard, hfind, hsim, hverify, Bool.false_eq_true, if_false]
  rfl

/-- Claim C7 as amended: the verify handler resolves the content id before any
ledger fetch — on a missing listing its outcome is independent of the chain
oracle and is the not-found rejection — but it performs no expiry check;
the expired rejection exists only in the initiate handler, which rejects an
expired listing before any external call. -/
theorem C7_amended_lookup_before_ledger :
    (∀ (env : Env) (mac : String → Segment → String)
        (chain chain' : String → Option TxRecord) (db : DB)
        (contentId transactionSignature : String) (payerWallet : Option String) (now : Nat),
      db.content.find? (fun c => c.id == contentId) = none →
        verifyHandler env mac chain db contentId transactionSignature payerWallet now
          = verifyHandler env mac chain' db contentId transactionSignature payerWallet now
        ∧ (contentId ≠ "" → transactionSignature ≠ "" →
            (verifyHandler env mac chain db contentId transactionSignature payerWallet now).2
              = VerifyResponse.contentNotFound))
    ∧ (∀ (db : DB) (contentId : String) (now : Nat) (content : ContentRow) (e : Nat),
        db.content.find? (fun c => c.id == contentId) = some content →
        content.expiresAt = some e → e < now →
        initiateHandler db contentId now = InitiateResponse.contentExpired) := by
  constructor
  · intro env mac chain chain' db contentId transactionSignature payerWallet now hmiss
    constructor
    · unfold verifyHandler
      cases hcond : (contentId == "" || transactionSignature == "") with
      | true => simp only [hcond, if_true]
      | false => simp only [hcond, Bool.false_eq_true, if_false, hmiss]
    · intro h1 h2
      have hc1 : (contentId == "") = false := beq_eq_false_iff_ne.mpr h1
      have hc2 : (transactionSignature == "") = false := beq_eq_false_iff_ne.mpr h2
      unfold verifyHandler
      simp only [hc1, hc2, Bool.or_self, Bool.false_eq_true, if_false, hmiss]
  · intro db contentId now content e hfind hexp hlt
    unfold initiateHandler
    rw [hfind]
    simp only [hexp]
    rw [if_pos hlt]

/-- Witness for C7's amended statement: an unknown content id is rejected as
not found whatever the chain oracle answers, and the initiate handler rejects
the expired listing of `dbExpired`. -/
theorem C7_amended_witness :
    (verifyHandler { nodeEnv := "production", frontendUrl := "https://pw" }
        macFix (fun _ => some failedTxGoodDeltas) dbFix "missing" "tx1" none 50).2
        = VerifyResponse.contentNotFound
    ∧ initiateHandler dbExpired "c1" 100 = InitiateResponse.contentExpired := by
  constructor
  · exact ((C7_amended_lookup_before_ledger.1
      { nodeEnv := "production", frontendUrl := "https://pw" }
      macFix (fun _ => some failedTxGoodDeltas) (fun _ => none) dbFix
      "missing" "tx1" none 50 rfl).2 (by decide) (by decide))
  · exact C7_amended_lookup_before_ledger.2 dbExpired "c1" 100
      { id := "c1", priceUsdc := 5, creatorWallet := "Creator",
        expiresAt := some 40, views := 0, payments := 0 }
      40 rfl rfl (by norm_num)

end Paywall402
